import Mathlib

/-!
Verification of the mini-sys-info sampling and rate-derivation engine.

Shallow embedding of the metric-sampling core of `src/main.cpp`:
`get_cpu_usage` (stateful CPU-percentage delta computation over /proc/stat
ticks), the per-interface network delta loop in `main`, and
`get_disk_usage`.  C++ `unsigned long long` arithmetic is modelled as `Nat`
reduced mod `2^64` at each operation where the source performs ull
arithmetic; C++ `double` results are modelled as exact rationals `ℚ`.
-/

/-- The modulus `2^64` of C++ `unsigned long long` arithmetic. -/
def ullMod : Nat := 2 ^ 64

/-- Unsigned 64-bit subtraction `a - b` as in C++: wraps modulo `2^64`.
Assumes `a, b < ullMod` (maintained by all producers in this file). -/
def ullSub (a b : Nat) : Nat := (a + ullMod - b) % ullMod

/-- The `static` state of `get_cpu_usage` (src/main.cpp lines 42-43):
`first_call`, `last_total`, `last_idle`. -/
structure CpuState where
  first_call : Bool
  last_total : Nat
  last_idle : Nat
deriving Repr, DecidableEq

/-- Initial values of the statics: `first_call = true`, counters zero. -/
def initCpuState : CpuState := ⟨true, 0, 0⟩

/-- Outcome of opening and extracting from /proc/stat, as `get_cpu_usage`
sees it.  `openFail`: the `ifstream` did not open.  `sample`: the eight
tick values held by the local variables after the chained `>>` extraction
(the source performs no parse check; see `parseCpuTokens`). -/
inductive CpuRead where
  | openFail
  | sample (user nice system idle iowait irq softirq steal : Nat)
deriving Repr, DecidableEq

/-- Computes `idle_time = idle + iowait` in ull arithmetic
(src/main.cpp line 56). -/
def cpuIdleTime (idle iowait : Nat) : Nat := (idle + iowait) % ullMod

/-- Computes `non_idle_time = user + nice + system + irq + softirq + steal`
in ull arithmetic (line 57); the left-associated mod-`2^64` additions equal one
sum reduced once. -/
def cpuNonIdleTime (user nice system irq softirq steal : Nat) : Nat :=
  (user + nice + system + irq + softirq + steal) % ullMod

/-- Computes `total_time = idle_time + non_idle_time` in ull arithmetic
(line 58). -/
def cpuTotalTime (user nice system idle iowait irq softirq steal : Nat) : Nat :=
  (cpuIdleTime idle iowait
    + cpuNonIdleTime user nice system irq softirq steal) % ullMod

/-- Function `get_cpu_usage` (src/main.cpp lines 41-81), with the statics made an
explicit state.  Returns the `double` result (as `ℚ`; `-1` on open
failure, `0` on the first call or when `total_delta == 0`, else
`100 * (total_delta - idle_delta) / total_delta` in ull then double
arithmetic) together with the updated state. -/
def get_cpu_usage (r : CpuRead) (s : CpuState) : ℚ × CpuState :=
  match r with
  | .openFail => (-1, s)
  | .sample user nice system idle iowait irq softirq steal =>
    let idle_time := cpuIdleTime idle iowait
    let total_time := cpuTotalTime user nice system idle iowait irq softirq steal
    if s.first_call then
      (0, ⟨false, total_time, idle_time⟩)
    else
      let total_delta := ullSub total_time s.last_total
      let idle_delta := ullSub idle_time s.last_idle
      let s' : CpuState := ⟨false, total_time, idle_time⟩
      if total_delta = 0 then
        (0, s')
      else
        ((100 * (ullSub total_delta idle_delta : ℚ)) / (total_delta : ℚ), s')

/-- The `total_delta` a non-first call computes from read `r` in state `s`
(line 69). -/
def cpuTotalDelta (r : CpuRead) (s : CpuState) : Nat :=
  match r with
  | .openFail => 0
  | .sample user nice system idle iowait irq softirq steal =>
    ullSub (cpuTotalTime user nice system idle iowait irq softirq steal)
      s.last_total

/-- The `idle_delta` a non-first call computes from read `r` in state `s`
(line 70). -/
def cpuIdleDelta (r : CpuRead) (s : CpuState) : Nat :=
  match r with
  | .openFail => 0
  | .sample _ _ _ idle iowait _ _ _ => ullSub (cpuIdleTime idle iowait) s.last_idle

/-- The chained extraction `file >> cpu_label >> user >> ... >> steal`
performed on an opened /proc/stat whose line after the label holds the
given numeric tokens.  The source checks nothing: each `>>` takes the next
token, and (C++11 `num_get`) the first failing extraction writes `0` to
its target.  This model is exact for token lists with at least 7 entries,
where at most the final extraction can fail. -/
def parseCpuTokens (toks : List Nat) : CpuRead :=
  match toks with
  | [u, n, s, i, io, irq, sirq] => .sample u n s i io irq sirq 0
  | u :: n :: s :: i :: io :: irq :: sirq :: st :: _ =>
    .sample u n s i io irq sirq st
  | _ => .sample 0 0 0 0 0 0 0 0

/-- A network sample: the `std::map<std::string, std::pair<ull,ull>>`
returned by `get_network_stats`, as an association list
(name, (rx_bytes, tx_bytes)) in the map's iteration order (keys unique,
sorted ascending; aggregate sums do not depend on the order). -/
abbrev NetStats := List (String × Nat × Nat)

/-- Models `previous_network_stats.count(name)` followed by the two lookups
(src/main.cpp lines 417-421): the previous (rx, tx) for `name`, or
(0, 0) when the interface is absent from the stored map. -/
def prevCounters (prev : NetStats) (name : String) : Nat × Nat :=
  match prev.find? (fun e => e.fst = name) with
  | some e => e.snd
  | none => (0, 0)

/-- Computes `current >= previous ? current - previous : 0`
(lines 424-425):
the wraparound-clamped per-counter delta. -/
def clampedDelta (current previous : Nat) : Nat :=
  if current ≥ previous then current - previous else 0

/-- One iteration of the rate loop (lines 409-429): skip `"lo"`, else add
the clamped rx/tx deltas for this interface into the ull accumulators. -/
def ifaceStep (prev : NetStats) (acc : Nat × Nat) (e : String × Nat × Nat) :
    Nat × Nat :=
  if e.fst = "lo" then acc
  else
    let p := prevCounters prev e.fst
    ((acc.fst + clampedDelta e.snd.fst p.fst) % ullMod,
     (acc.snd + clampedDelta e.snd.snd p.snd) % ullMod)

/-- The whole rate loop: `(total_rx_rate, total_tx_rate)` accumulated over
every interface of the current sample, starting from (0, 0)
(lines 405-429). -/
def netRates (prev current : NetStats) : Nat × Nat :=
  current.foldl (ifaceStep prev) (0, 0)

/-- The fields of `struct statvfs` that `get_disk_usage` reads. -/
structure DiskStats where
  f_blocks : Nat
  f_bavail : Nat
  f_frsize : Nat
deriving Repr, DecidableEq

/-- Function `get_disk_usage` (src/main.cpp lines 134-150): `none` models a failing
`statvfs` call (result `-1.0`); on success, total and available space are
computed in ull arithmetic, a zero total yields `0.0`, and otherwise the
used-space percentage is returned (double arithmetic as exact `ℚ`). -/
def get_disk_usage (r : Option DiskStats) : ℚ :=
  match r with
  | none => -1
  | some d =>
    let total_space := d.f_blocks * d.f_frsize % ullMod
    let available_space := d.f_bavail * d.f_frsize % ullMod
    if total_space = 0 then 0
    else ((ullSub total_space available_space : ℚ) * 100) / (total_space : ℚ)

/-- Helper: the ull modulus is positive. -/
theorem ullMod_pos : 0 < ullMod := by norm_num [ullMod]

/-- Helper: `ullSub` always lands below the modulus. -/
theorem ullSub_lt (a b : Nat) : ullSub a b < ullMod :=
  Nat.mod_lt _ ullMod_pos

/-- Helper: when the subtrahend does not exceed an in-range minuend, the
wrapping subtraction is plain subtraction. -/
theorem ullSub_of_le {a b : Nat} (hba : b ≤ a) (ha : a < ullMod) :
    ullSub a b = a - b := by
  unfold ullSub
  have h1 : a + ullMod - b = ullMod + (a - b) := by omega
  rw [h1, Nat.add_mod_left]
  exact Nat.mod_eq_of_lt (by omega)

/-- Helper: result of a non-first CPU reading with nonzero total delta, in
the source's own ull arithmetic. -/
theorem cpu_usage_ull_form (s : CpuState) (u n sys i io irq sirq st : Nat)
    (hfc : s.first_call = false)
    (htd : cpuTotalDelta (.sample u n sys i io irq sirq st) s ≠ 0) :
    (get_cpu_usage (.sample u n sys i io irq sirq st) s).fst
      = 100 * ((ullSub (cpuTotalDelta (.sample u n sys i io irq sirq st) s)
            (cpuIdleDelta (.sample u n sys i io irq sirq st) s) : Nat) : ℚ)
          / ((cpuTotalDelta (.sample u n sys i io irq sirq st) s : Nat) : ℚ) := by
  simp only [cpuTotalDelta, cpuIdleDelta] at htd ⊢
  simp [get_cpu_usage, hfc, htd]

/-- Helper: closed form of a non-first CPU reading with nonzero total
delta and idle delta not exceeding it: the mod-`2^64` inner subtraction is
then exact. -/
theorem cpu_usage_closed_form (s : CpuState) (u n sys i io irq sirq st : Nat)
    (hfc : s.first_call = false)
    (htd : cpuTotalDelta (.sample u n sys i io irq sirq st) s ≠ 0)
    (hid : cpuIdleDelta (.sample u n sys i io irq sirq st) s
      ≤ cpuTotalDelta (.sample u n sys i io irq sirq st) s) :
    (get_cpu_usage (.sample u n sys i io irq sirq st) s).fst
      = 100 * ((cpuTotalDelta (.sample u n sys i io irq sirq st) s : ℚ)
            - (cpuIdleDelta (.sample u n sys i io irq sirq st) s : ℚ))
          / (cpuTotalDelta (.sample u n sys i io irq sirq st) s : ℚ) := by
  rw [cpu_usage_ull_form s u n sys i io irq sirq st hfc htd]
  have hlt : cpuTotalDelta (.sample u n sys i io irq sirq st) s < ullMod := by
    simp only [cpuTotalDelta]
    exact ullSub_lt _ _
  rw [ullSub_of_le hid hlt]
  push_cast [hid]
  ring

/-- C4: the very first successful CPU reading returns exactly 0 with no
division performed (the first-call branch of `get_cpu_usage` contains
none), and stores the sample's (total, idle) tick sums as the previous
state for the next call. -/
theorem cpu_first_call_bootstrap (s : CpuState) (u n sys i io irq sirq st : Nat)
    (hfc : s.first_call = true) :
    get_cpu_usage (.sample u n sys i io irq sirq st) s
      = (0, ⟨false, cpuTotalTime u n sys i io irq sirq st, cpuIdleTime i io⟩) := by
  simp [get_cpu_usage, hfc]

/-- Witness for C4 at the concrete first sample with total 100, idle 10. -/
theorem cpu_first_call_bootstrap_witness :
    get_cpu_usage (.sample 90 0 0 10 0 0 0 0) initCpuState
      = (0, ⟨false, cpuTotalTime 90 0 0 10 0 0 0 0, cpuIdleTime 10 0⟩) :=
  cpu_first_call_bootstrap initCpuState 90 0 0 10 0 0 0 0 rfl

/-- C5: on a non-first call with `total_delta == 0`, the result is exactly
0 and the stored previous values are still overwritten with the current
sample's (total, idle), exactly as in the nonzero-delta case. -/
theorem cpu_zero_delta_reports_zero (s : CpuState) (u n sys i io irq sirq st : Nat)
    (hfc : s.first_call = false)
    (htd : cpuTotalDelta (.sample u n sys i io irq sirq st) s = 0) :
    get_cpu_usage (.sample u n sys i io irq sirq st) s
      = (0, ⟨false, cpuTotalTime u n sys i io irq sirq st, cpuIdleTime i io⟩) := by
  simp only [cpuTotalDelta] at htd
  simp [get_cpu_usage, hfc, htd]

/-- Witness for C5: a repeated (total, idle) = (100, 10) sample gives zero
delta, reports 0 and still overwrites the stored state. -/
theorem cpu_zero_delta_reports_zero_witness :
    get_cpu_usage (.sample 90 0 0 10 0 0 0 0) ⟨false, 100, 10⟩
      = (0, ⟨false, cpuTotalTime 90 0 0 10 0 0 0 0, cpuIdleTime 10 0⟩) :=
  cpu_zero_delta_reports_zero ⟨false, 100, 10⟩ 90 0 0 10 0 0 0 0 rfl (by decide)

/-- C8: when `statvfs` succeeds and total space (blocks times fragment
size, in ull arithmetic) is zero, `get_disk_usage` returns exactly 0 — a
valid zero-percent reading — while the `-1` marker is produced exactly by
a failing `statvfs` call. -/
theorem disk_zero_total_reports_zero (d : DiskStats)
    (hz : d.f_blocks * d.f_frsize % ullMod = 0) :
    get_disk_usage (some d) = 0 ∧ get_disk_usage none = -1 := by
  constructor
  · simp [get_disk_usage, hz]
  · rfl

/-- Witness for C8 at a filesystem report with zero blocks. -/
theorem disk_zero_total_reports_zero_witness :
    get_disk_usage (some ⟨0, 5, 4096⟩) = 0 ∧ get_disk_usage none = -1 :=
  disk_zero_total_reports_zero ⟨0, 5, 4096⟩ (by decide)

/-- C10: an open failure of /proc/stat returns -1 and leaves the whole
static state untouched, so a subsequent successful read in a never-sampled
state is still the bootstrap call and returns 0. -/
theorem cpu_open_fail_preserves_state :
    (∀ s : CpuState, get_cpu_usage .openFail s = (-1, s))
    ∧ (∀ (s : CpuState) (u n sys i io irq sirq st : Nat),
        s.first_call = true →
        (get_cpu_usage (.sample u n sys i io irq sirq st)
          (get_cpu_usage .openFail s).snd).fst = 0) := by
  constructor
  · intro s
    rfl
  · intro s u n sys i io irq sirq st hfc
    simp [get_cpu_usage, hfc]

/-- Witness for C10 starting from the initial static state. -/
theorem cpu_open_fail_preserves_state_witness :
    get_cpu_usage .openFail initCpuState = (-1, initCpuState)
    ∧ (get_cpu_usage (.sample 90 0 0 10 0 0 0 0)
        (get_cpu_usage .openFail initCpuState).snd).fst = 0 :=
  ⟨cpu_open_fail_preserves_state.1 initCpuState,
   cpu_open_fail_preserves_state.2 initCpuState 90 0 0 10 0 0 0 0 rfl⟩

/-- C9 counterexample: an opened /proc/stat whose line holds only 7
numeric tokens cannot be parsed as the 8 aggregate tick counters, yet
`get_cpu_usage` does not return -1: the unchecked extraction zero-fills
the failed field and the bootstrap branch returns 0. -/
theorem cpu_parse_fail_not_unavailable :
    (get_cpu_usage (parseCpuTokens [1, 2, 3, 4, 5, 6, 7]) initCpuState).fst ≠ -1
    ∧ (get_cpu_usage (parseCpuTokens [1, 2, 3, 4, 5, 6, 7]) initCpuState).fst = 0 := by
  norm_num [get_cpu_usage, parseCpuTokens, initCpuState]

/-- Helper: every successfully opened read returns a nonnegative result:
each branch of the sample path yields 0 or a quotient of nonnegative
numbers. -/
theorem cpu_sample_result_nonneg (s : CpuState) (u n sys i io irq sirq st : Nat) :
    0 ≤ (get_cpu_usage (.sample u n sys i io irq sirq st) s).fst := by
  rcases hfc : s.first_call with _ | _
  · by_cases htd : cpuTotalDelta (.sample u n sys i io irq sirq st) s = 0
    · simp only [cpuTotalDelta] at htd
      simp [get_cpu_usage, hfc, htd]
    · rw [cpu_usage_ull_form s u n sys i io irq sirq st hfc htd]
      positivity
  · simp [get_cpu_usage, hfc]

/-- Helper: the unchecked stream extraction always produces tick values —
never the open-failure outcome. -/
theorem parseCpuTokens_yields_sample (toks : List Nat) :
    parseCpuTokens toks ≠ .openFail := by
  unfold parseCpuTokens
  rcases toks with _ | ⟨a, _ | ⟨b, _ | ⟨c, _ | ⟨d, _ | ⟨e, _ | ⟨f, _ | ⟨g, _ | ⟨h, rest⟩⟩⟩⟩⟩⟩⟩⟩ <;>
    simp

/-- C9 (amended): `get_cpu_usage` returns the -1 unavailable signal
exactly when its source cannot be opened (and, being total, never
crashes): every read other than an open failure — in particular the
extraction outcome of any unparseable token list — returns a nonnegative
result, never -1; contents that fail to parse as the 8 counters are not
detected, the zero-filled extraction proceeds (returning 0 on a first
call). -/
theorem cpu_unavailable_only_on_open_fail :
    (∀ s : CpuState, (get_cpu_usage .openFail s).fst = -1)
    ∧ (∀ (s : CpuState) (r : CpuRead), r ≠ .openFail →
        (get_cpu_usage r s).fst ≠ -1)
    ∧ (∀ (s : CpuState) (toks : List Nat),
        (get_cpu_usage (parseCpuTokens toks) s).fst ≠ -1)
    ∧ (get_cpu_usage (parseCpuTokens [1, 2, 3, 4, 5, 6, 7]) initCpuState).fst = 0 := by
  have hno : ∀ (s : CpuState) (r : CpuRead), r ≠ .openFail →
      (get_cpu_usage r s).fst ≠ -1 := by
    intro s r hr
    cases r with
    | openFail => exact absurd rfl hr
    | sample u n sys i io irq sirq st =>
      have hpos := cpu_sample_result_nonneg s u n sys i io irq sirq st
      intro hcontra
      rw [hcontra] at hpos
      norm_num at hpos
  refine ⟨fun s => rfl, hno, fun s toks => hno s _ (parseCpuTokens_yields_sample toks), ?_⟩
  norm_num [get_cpu_usage, parseCpuTokens, initCpuState]

/-- Witness for C9's amended theorem: the three unavailability facts at
concrete inputs — an open failure from the initial state gives -1, while
a successful read and the 7-token unparseable read do not. -/
theorem cpu_unavailable_only_on_open_fail_witness :
    (get_cpu_usage .openFail initCpuState).fst = -1
    ∧ (get_cpu_usage (.sample 90 0 0 10 0 0 0 0) initCpuState).fst ≠ -1
    ∧ (get_cpu_usage (parseCpuTokens [1, 2, 3, 4, 5, 6, 7]) initCpuState).fst ≠ -1 :=
  ⟨cpu_unavailable_only_on_open_fail.1 initCpuState,
   cpu_unavailable_only_on_open_fail.2.1 initCpuState
     (.sample 90 0 0 10 0 0 0 0) (by decide),
   cpu_unavailable_only_on_open_fail.2.2.1 initCpuState [1, 2, 3, 4, 5, 6, 7]⟩

/-- C1: on a non-first call with positive `total_delta`, the result is
`100 * (total_delta - idle_delta) / total_delta` with the deltas taken
from the stored previous (total, idle) sums — stated both in the source's
ull arithmetic and, when `idle_delta` does not exceed `total_delta`, with
exact subtraction; feeding tick samples with (total, idle) sums (100, 10)
then (200, 30) yields usage 80 on the second call. -/
theorem cpu_usage_delta_formula :
    (∀ (s : CpuState) (u n sys i io irq sirq st : Nat),
      s.first_call = false →
      0 < cpuTotalDelta (.sample u n sys i io irq sirq st) s →
      (get_cpu_usage (.sample u n sys i io irq sirq st) s).fst
        = 100 * ((ullSub (cpuTotalDelta (.sample u n sys i io irq sirq st) s)
              (cpuIdleDelta (.sample u n sys i io irq sirq st) s) : Nat) : ℚ)
            / ((cpuTotalDelta (.sample u n sys i io irq sirq st) s : Nat) : ℚ))
    ∧ (∀ (s : CpuState) (u n sys i io irq sirq st : Nat),
      s.first_call = false →
      0 < cpuTotalDelta (.sample u n sys i io irq sirq st) s →
      cpuIdleDelta (.sample u n sys i io irq sirq st) s
        ≤ cpuTotalDelta (.sample u n sys i io irq sirq st) s →
      (get_cpu_usage (.sample u n sys i io irq sirq st) s).fst
        = 100 * ((cpuTotalDelta (.sample u n sys i io irq sirq st) s : ℚ)
              - (cpuIdleDelta (.sample u n sys i io irq sirq st) s : ℚ))
            / (cpuTotalDelta (.sample u n sys i io irq sirq st) s : ℚ))
    ∧ (get_cpu_usage (.sample 170 0 0 30 0 0 0 0)
        (get_cpu_usage (.sample 90 0 0 10 0 0 0 0) initCpuState).snd).fst = 80 := by
  refine ⟨?_, ?_, ?_⟩
  · intro s u n sys i io irq sirq st hfc htd
    exact cpu_usage_ull_form s u n sys i io irq sirq st hfc (Nat.pos_iff_ne_zero.mp htd)
  · intro s u n sys i io irq sirq st hfc htd hid
    exact cpu_usage_closed_form s u n sys i io irq sirq st hfc
      (Nat.pos_iff_ne_zero.mp htd) hid
  · norm_num [get_cpu_usage, initCpuState, cpuTotalTime, cpuIdleTime,
      cpuNonIdleTime, ullSub, ullMod]

/-- Witness for C1 at the second poll of the (100, 10) then (200, 30)
sequence: `total_delta = 100`, `idle_delta = 20`. -/
theorem cpu_usage_delta_formula_witness :
    (get_cpu_usage (.sample 170 0 0 30 0 0 0 0) ⟨false, 100, 10⟩).fst
      = 100 * ((cpuTotalDelta (.sample 170 0 0 30 0 0 0 0) ⟨false, 100, 10⟩ : ℚ)
            - (cpuIdleDelta (.sample 170 0 0 30 0 0 0 0) ⟨false, 100, 10⟩ : ℚ))
          / (cpuTotalDelta (.sample 170 0 0 30 0 0 0 0) ⟨false, 100, 10⟩ : ℚ) :=
  cpu_usage_delta_formula.2.1 ⟨false, 100, 10⟩ 170 0 0 30 0 0 0 0 rfl
    (by decide) (by decide)

/-- C6: on a non-first call with positive `total_delta` and
`idle_delta ≤ total_delta`, the returned usage lies in [0, 100]. -/
theorem cpu_usage_bounded (s : CpuState) (u n sys i io irq sirq st : Nat)
    (hfc : s.first_call = false)
    (htd : 0 < cpuTotalDelta (.sample u n sys i io irq sirq st) s)
    (hid : cpuIdleDelta (.sample u n sys i io irq sirq st) s
      ≤ cpuTotalDelta (.sample u n sys i io irq sirq st) s) :
    0 ≤ (get_cpu_usage (.sample u n sys i io irq sirq st) s).fst
      ∧ (get_cpu_usage (.sample u n sys i io irq sirq st) s).fst ≤ 100 := by
  rw [cpu_usage_closed_form s u n sys i io irq sirq st hfc
    (Nat.pos_iff_ne_zero.mp htd) hid]
  have ha : (0 : ℚ) < (cpuTotalDelta (.sample u n sys i io irq sirq st) s : ℚ) := by
    exact_mod_cast htd
  have hab : ((cpuIdleDelta (.sample u n sys i io irq sirq st) s : ℚ))
      ≤ (cpuTotalDelta (.sample u n sys i io irq sirq st) s : ℚ) := by
    exact_mod_cast hid
  constructor
  · apply div_nonneg _ (le_of_lt ha)
    nlinarith
  · rw [div_le_iff₀ ha]
    nlinarith

/-- Witness for C6 at the same concrete second poll as C1. -/
theorem cpu_usage_bounded_witness :
    0 ≤ (get_cpu_usage (.sample 170 0 0 30 0 0 0 0) ⟨false, 100, 10⟩).fst
      ∧ (get_cpu_usage (.sample 170 0 0 30 0 0 0 0) ⟨false, 100, 10⟩).fst ≤ 100 :=
  cpu_usage_bounded ⟨false, 100, 10⟩ 170 0 0 30 0 0 0 0 rfl (by decide) (by decide)

/-- C2: in the per-interface loop step, a current rx (respectively tx)
counter strictly below the stored previous value contributes exactly 0 to
its accumulator — rx and tx are clamped independently and no underflow or
negative contribution occurs (accumulators stay in ull range throughout
the loop, as the hypotheses record). -/
theorem net_clamped_delta_no_underflow (prev : NetStats) (name : String)
    (crx ctx : Nat) (acc : Nat × Nat)
    (h1 : acc.fst < ullMod) (h2 : acc.snd < ullMod) :
    (crx < (prevCounters prev name).fst →
      (ifaceStep prev acc (name, crx, ctx)).fst = acc.fst)
    ∧ (ctx < (prevCounters prev name).snd →
      (ifaceStep prev acc (name, crx, ctx)).snd = acc.snd) := by
  unfold ifaceStep
  by_cases hlo : name = "lo"
  · simp [hlo]
  · constructor
    · intro hc
      simp [hlo, clampedDelta, not_le.mpr hc, Nat.mod_eq_of_lt h1]
    · intro hc
      simp [hlo, clampedDelta, not_le.mpr hc, Nat.mod_eq_of_lt h2]

/-- Witness for C2: both counters decreasing on a known interface leave
the accumulators unchanged. -/
theorem net_clamped_delta_no_underflow_witness :
    (ifaceStep [("eth0", 100, 200)] (3, 4) ("eth0", 50, 150)).fst = 3
    ∧ (ifaceStep [("eth0", 100, 200)] (3, 4) ("eth0", 50, 150)).snd = 4 := by
  have h := net_clamped_delta_no_underflow [("eth0", 100, 200)] "eth0" 50 150 (3, 4)
    (by norm_num [ullMod]) (by norm_num [ullMod])
  exact ⟨h.1 (by decide), h.2 (by decide)⟩

/-- C3: a loop step on the loopback interface is the identity on the
accumulators, whatever its counters; and for the spec's end-to-end
example — previous sample eth0 = (1000, 500), current sample
eth0 = (1500, 500) and lo = (9999, 9999) — the aggregate rates are
(rx, tx) = (500, 0). -/
theorem net_loopback_never_contributes :
    (∀ (prev : NetStats) (acc : Nat × Nat) (rx tx : Nat),
      ifaceStep prev acc ("lo", rx, tx) = acc)
    ∧ netRates [("eth0", 1000, 500)] [("eth0", 1500, 500), ("lo", 9999, 9999)]
        = (500, 0) := by
  refine ⟨fun prev acc rx tx => ?_, by decide⟩
  simp [ifaceStep]

/-- C7: an interface absent from the stored previous-counters map gets
previous values (0, 0), so its loop step adds exactly its current rx and
tx counters to the accumulators. -/
theorem net_new_interface_contributes_current (prev : NetStats) (name : String)
    (crx ctx : Nat) (acc : Nat × Nat)
    (habs : prev.find? (fun e => e.fst = name) = none)
    (hlo : name ≠ "lo") :
    prevCounters prev name = (0, 0)
    ∧ ifaceStep prev acc (name, crx, ctx)
        = ((acc.fst + crx) % ullMod, (acc.snd + ctx) % ullMod) := by
  have hp : prevCounters prev name = (0, 0) := by
    simp [prevCounters, habs]
  refine ⟨hp, ?_⟩
  simp [ifaceStep, hlo, hp, clampedDelta]

/-- Witness for C7: interface wlan0, absent from a previous map holding
only eth0, contributes its full current counters. -/
theorem net_new_interface_contributes_current_witness :
    prevCounters [("eth0", 1, 2)] "wlan0" = (0, 0)
    ∧ ifaceStep [("eth0", 1, 2)] (0, 0) ("wlan0", 7, 9)
        = ((0 + 7) % ullMod, (0 + 9) % ullMod) :=
  net_new_interface_contributes_current [("eth0", 1, 2)] "wlan0" 7 9 (0, 0)
    (by decide) (by decide)
